import Mathlib

/-!
Shallow embedding of the allow2automate-operating-system plugin
(main module: the plugin factory with handleSessionData, handleProcessData,
updateUsageTracking, checkQuotasAndEnforce, scheduleShutdown, showTimeWarning,
enforceLogout, blockBrowsers, checkBedtime, the os:unlinkAgent IPC handler,
logViolation and logActivity).

Modelling conventions:
- Timestamps are milliseconds as Int (Date.now()).
- JS floating-point second counts and minute fractions are modelled as Rat;
  the divisions performed by the source are exact in Rat.
- setTimeout is modelled by appending a Timer record to a list of pending
  (scheduled-but-unfired) timers; clearTimeout removes the record.  The
  shutdownTimers Map of the source is an association list agentId to timer id.
- triggerAction / sendToRenderer calls are modelled as an append-only effects
  list; configurationUpdate and console logging are not observable and are
  not modelled.
- The allow2Client service is modelled as always available (the source only
  skips the whole evaluation when it is absent); the oracle itself is a
  parameter returning Except (a thrown transport error) of Option (a null
  response is falsy at the if (computerAllowance) test).
- JS in-place mutation of the agent record is modelled by re-inserting the
  updated record into the agents association list.
-/

/-- Association list lookup (models Map.get and object indexing). -/
def alistLookup {κ α : Type} [DecidableEq κ] : List (κ × α) → κ → Option α
  | [], _ => none
  | (k, v) :: rest, key => if k = key then some v else alistLookup rest key

/-- Association list insert (models Map.set and object property assignment). -/
def alistInsert {κ α : Type} [DecidableEq κ] (l : List (κ × α)) (key : κ) (v : α) :
    List (κ × α) :=
  (key, v) :: l.filter (fun p => decide (p.1 ≠ key))

/-- Association list erase (models Map.delete). -/
def alistErase {κ α : Type} [DecidableEq κ] (l : List (κ × α)) (key : κ) : List (κ × α) :=
  l.filter (fun p => decide (p.1 ≠ key))

/-- Boolean test that the first list is an initial segment of the second. -/
def prefixOfCL : List Char → List Char → Bool
  | [], _ => true
  | _ :: _, [] => false
  | c :: cs, d :: ds => c == d && prefixOfCL cs ds

/-- Boolean substring test on character lists (models String.prototype.includes). -/
def containsSub (needle : List Char) : List Char → Bool
  | [] => prefixOfCL needle []
  | c :: rest => prefixOfCL needle (c :: rest) || containsSub needle rest

/-- Lower-cased character list of a string (models toLowerCase). -/
def lowerChars (s : String) : List Char := s.data.map Char.toLower

/-- Addition on Rat through mkRat (kernel-computable; equal to + by
ratAdd_eq_add below). -/
def ratAdd (a b : Rat) : Rat := mkRat (a.num * (b.den : Int) + b.num * (a.den : Int)) (a.den * b.den)

/-- Negation on Rat through mkRat (kernel-computable). -/
def ratNeg (a : Rat) : Rat := mkRat (-a.num) a.den

/-- Floor of a rational as an integer. -/
def ratFloor (q : Rat) : Int := q.num.fdiv (q.den : Int)

/-- Ceiling of a rational (models Math.ceil). -/
def ratCeil (q : Rat) : Int := -(ratFloor (ratNeg q))

/-- models Math.round: floor of q + 1/2. -/
def ratRound (q : Rat) : Int := ratFloor (ratAdd q (mkRat 1 2))

/-- Local calendar day index of a millisecond timestamp, for a fixed UTC
offset in milliseconds.  Used only to state day-boundary properties; the
source itself never computes a date for usage tracking. -/
def localDate (offsetMs t : Int) : Int := (t + offsetMs).fdiv 86400000

/-- Global settings record (state.settings). -/
structure Settings where
  pauseOnIdle : Bool
  idleThreshold : Int
  warningTimes : List Nat
  gracePeriod : Int
  monitorInterval : Int
  killOnViolation : Bool
  notifyParent : Bool
deriving DecidableEq

/-- The defaults installed by onLoad when no persisted state exists. -/
def defaultSettings : Settings :=
  { pauseOnIdle := true
    idleThreshold := 300000
    warningTimes := [15, 5, 1]
    gracePeriod := 60
    monitorInterval := 30000
    killOnViolation := true
    notifyParent := true }

/-- Session telemetry payload fields the plugin reads. -/
structure SessionData where
  username : String
  isIdle : Bool
deriving DecidableEq

/-- One entry of a process list. -/
structure ProcEntry where
  pid : Int
  name : String
deriving DecidableEq

/-- Process telemetry payload fields the plugin reads. -/
structure ProcessData where
  browsers : List ProcEntry
  processes : List ProcEntry
deriving DecidableEq

/-- Per-agent record (state.agents[agentId]).  currentProcessData is read at
two places of the source but never assigned anywhere, so it is none in every
reachable state. -/
structure Agent where
  childId : Option Nat
  enabled : Bool
  lastSeen : Int
  hostname : String
  currentSession : Option SessionData
  currentProcessData : Option ProcessData
deriving DecidableEq

/-- Bedtime rule of a child configuration. -/
structure Bedtime where
  enabled : Bool
  time : String
  days : List String
deriving DecidableEq

/-- Per-child configuration (state.children[childId]). -/
structure ChildConfig where
  blockedProcesses : List String
  bedtime : Option Bedtime
deriving DecidableEq

/-- A violation record appended by logViolation. -/
structure Violation where
  vtype : String
  agentId : Nat
  hostname : Option String
  processName : Option String
  reason : Option String
  timestamp : Int
deriving DecidableEq

/-- An activity feed entry appended by logActivity. -/
structure Activity where
  atype : String
  message : String
  agentId : Nat
  timestamp : Int
deriving DecidableEq

/-- The persisted plugin state blob. -/
structure PluginState where
  agents : List (Nat × Agent)
  userMappings : List (Nat × List (String × Nat))
  parentAccounts : List (Nat × List String)
  children : List (Nat × ChildConfig)
  settings : Settings
  violations : List Violation
  activityLog : List Activity
deriving DecidableEq

/-- Agent-side actions the plugin can trigger (kill-process, show-warning,
logout-user, lock-session). -/
inductive AgentAction where
  | killProcess (pid : Int) (processName reason : String)
  | showWarning (title message urgency : String)
  | logoutUser (username : Option String) (reason : String)
  | lockSession
deriving DecidableEq

/-- Observable outputs: agentService.triggerAction calls and
context.sendToRenderer notifications. -/
inductive Effect where
  | trigger (agentId : Nat) (action : AgentAction)
  | rendererSessionUpdate (agentId : Nat) (session : SessionData)
  | rendererBlockedProcessDetected (agentId : Nat) (hostname processName : String)
  | rendererQuotaWarning (agentId : Nat) (activity : String) (remaining : Rat)
  | rendererQuotaExhausted (agentId : Nat) (hostname reason : String)
  | rendererBedtimeWarning (agentId : Nat) (minutes : Int)
  | rendererViolation (v : Violation)
deriving DecidableEq

/-- What a pending setTimeout callback will do when it fires. -/
inductive TimerPayload where
  | warningTimer (agentId : Nat) (warningMinutes : Nat)
  | shutdownLogout (agentId : Nat) (childId : Nat)
  | graceLogout (agentId : Nat) (reason : String)
deriving DecidableEq

/-- A scheduled-but-unfired setTimeout. -/
structure Timer where
  tid : Nat
  fireAt : Int
  payload : TimerPayload
deriving DecidableEq

/-- One usage tracking cell (the usageTracking Map values). -/
structure Tracking where
  startTime : Int
  lastUpdate : Int
  totalSeconds : Rat
deriving DecidableEq

/-- The data argument of updateUsageTracking: session payloads carry isIdle,
process payloads carry browsers; the field the other payload kind lacks is
undefined in JS, hence falsy / empty here. -/
structure UsageTelemetry where
  isIdle : Bool
  browsers : List ProcEntry
deriving DecidableEq

/-- Full runtime: persisted state plus the in-memory maps and the pending
JS timers, plus the accumulated observable effects. -/
structure Runtime where
  state : PluginState
  usageTracking : List ((Nat × Nat × String) × Tracking)
  pendingTimers : List Timer
  shutdownTimers : List (Nat × Nat)
  nextTid : Nat
  effects : List Effect
deriving DecidableEq

/-- The oracle (allow2Client.checkActivity): childId and activity type to a
thrown transport error, a null response, or an allowance verdict. -/
structure Allowance where
  is_banned : Bool
  is_activity_blocked : Bool
  allowed : Bool
  remaining_seconds : Int
deriving DecidableEq

def Oracle : Type := Nat → String → Except Unit (Option Allowance)

/-- Local wall-clock reading used by checkBedtime (new Date()). -/
structure LocalTime where
  dayOfWeek : Nat
  hour : Nat
  minute : Nat
  second : Nat
  millis : Nat
deriving DecidableEq

def dayNames : List String := ["sun", "mon", "tue", "wed", "thu", "fri", "sat"]

/-- Milliseconds since local midnight. -/
def msOfDay (lt : LocalTime) : Int :=
  (lt.hour : Int) * 3600000 + (lt.minute : Int) * 60000 +
    (lt.second : Int) * 1000 + (lt.millis : Int)

/-- Split a character list at every occurrence of the separator. -/
def splitCL (sep : Char) : List Char → List (List Char)
  | [] => [[]]
  | c :: rest =>
    let r := splitCL sep rest
    if c == sep then [] :: r
    else
      match r with
      | [] => [[c]]
      | h :: t => (c :: h) :: t

/-- Digits-only model of the JS Number conversion, sufficient for the HH:MM
strings this plugin stores (an empty string is 0, a non-digit fails). -/
def digitsVal : List Char → Nat → Option Nat
  | [], acc => some acc
  | c :: rest, acc =>
    if c.isDigit then digitsVal rest (acc * 10 + (c.toNat - 48)) else none

/-- Parse an HH:MM string (rules.time.split at the colon, mapped over
Number); a failed parse yields the NaN path of the source, on which neither
bedtime branch runs. -/
def parseTime (s : String) : Option (Nat × Nat) :=
  match splitCL ':' s.data with
  | [h, m] =>
    match digitsVal h 0, digitsVal m 0 with
    | some hh, some mm => some (hh, mm)
    | _, _ => none
  | _ => none

/-- minutesUntilBedtime = (bedtime - now) / 60000 with bedtime at
hour:minute:00.000 of the current local day. -/
def minutesUntil (lt : LocalTime) (hour minute : Nat) : Rat :=
  mkRat ((hour : Int) * 3600000 + (minute : Int) * 60000 - msOfDay lt) 60000

/-- updateUsageTracking (source lines 357-379): advance one usage cell.
elapsed = (now - lastUpdate) / 1000 with no clamping; counted only when the
activity gating condition holds.  The first argument is
state.settings.pauseOnIdle. -/
def updateUsageTracking (pauseOnIdle : Bool) (stored : Option Tracking) (now : Int)
    (activity : String) (data : UsageTelemetry) : Tracking :=
  let tracking := stored.getD { startTime := now, lastUpdate := now, totalSeconds := 0 }
  let elapsed : Rat := mkRat (now - tracking.lastUpdate) 1000
  let total :=
    if activity = "internet" ∧ data.browsers ≠ [] then ratAdd tracking.totalSeconds elapsed
    else if activity = "computer" ∧ data.isIdle = false then
      ratAdd tracking.totalSeconds elapsed
    else if activity = "computer" ∧ data.isIdle = true ∧ pauseOnIdle = false then
      ratAdd tracking.totalSeconds elapsed
    else tracking.totalSeconds
  { tracking with lastUpdate := now, totalSeconds := total }

/-- Wrapper threading updateUsageTracking through the usageTracking map. -/
def updateUsageRT (rt : Runtime) (now : Int) (agentId childId : Nat) (activity : String)
    (data : UsageTelemetry) : Runtime :=
  let key := (agentId, childId, activity)
  let tracking := updateUsageTracking rt.state.settings.pauseOnIdle
    (alistLookup rt.usageTracking key) now activity data
  { rt with usageTracking := alistInsert rt.usageTracking key tracking }

/-- Violation ring push: unshift then trim to 200 (logViolation). -/
def pushViolation (vs : List Violation) (v : Violation) : List Violation :=
  let vs := v :: vs
  if 200 < vs.length then vs.take 200 else vs

/-- Activity ring push: unshift then trim to 500 (logActivity). -/
def pushActivity (log : List Activity) (a : Activity) : List Activity :=
  let log := a :: log
  if 500 < log.length then log.take 500 else log

/-- logActivity (source lines 940-945). -/
def logActivity (st : PluginState) (a : Activity) : PluginState :=
  { st with activityLog := pushActivity st.activityLog a }

/-- logViolation (source lines 915-935): push to the violations ring, mirror
into the activity feed, and notify the renderer when notifyParent is set. -/
def logViolation (rt : Runtime) (v : Violation) : Runtime :=
  let st := { rt.state with violations := pushViolation rt.state.violations v }
  let st := logActivity st
    { atype := v.vtype
      message := v.vtype ++ ": " ++ (v.reason.getD (v.processName.getD ""))
      agentId := v.agentId
      timestamp := v.timestamp }
  let effs :=
    if st.settings.notifyParent then rt.effects ++ [Effect.rendererViolation v]
    else rt.effects
  { rt with state := st, effects := effs }

/-- showTimeWarning (source lines 503-525). -/
def showTimeWarning (rt : Runtime) (agentId : Nat) (activity : String)
    (minutesRemaining : Rat) : Runtime :=
  match alistLookup rt.state.agents agentId with
  | none => rt
  | some _ =>
    let r := ratRound minutesRemaining
    let rt := { rt with effects := rt.effects ++
      [Effect.trigger agentId (AgentAction.showWarning
        (toString r ++ " minutes remaining")
        ("You have " ++ toString r ++ " minutes of " ++ activity ++ " time left.")
        (if minutesRemaining ≤ 5 then "critical" else "normal"))] }
    { rt with effects := rt.effects ++
      [Effect.rendererQuotaWarning agentId activity minutesRemaining] }

/-- enforceLogout (source lines 530-577): final warning, then a grace-period
setTimeout that will trigger the logout-user action.  That timeout is NOT
recorded in shutdownTimers.  The childId parameter is unused by the source
body as well. -/
def enforceLogout (rt : Runtime) (now : Int) (agentId : Nat) (childId : Option Nat)
    (reason : String) : Runtime :=
  match alistLookup rt.state.agents agentId with
  | none => rt
  | some agent =>
    let grace := rt.state.settings.gracePeriod
    let rt := { rt with effects := rt.effects ++
      [Effect.trigger agentId (AgentAction.showWarning "Time is up!"
        ("Logging out in " ++ toString grace ++ " seconds. Please save your work.")
        "critical")] }
    let timer : Timer :=
      { tid := rt.nextTid, fireAt := now + grace * 1000
        payload := TimerPayload.graceLogout agentId reason }
    let rt := { rt with pendingTimers := rt.pendingTimers ++ [timer]
                        nextTid := rt.nextTid + 1 }
    let rt := logViolation rt
      { vtype := "quota_exhausted", agentId := agentId, hostname := some agent.hostname
        processName := none, reason := some reason, timestamp := now }
    { rt with effects := rt.effects ++
      [Effect.rendererQuotaExhausted agentId agent.hostname reason] }

/-- The clearTimeout on the tracked timer at the top of scheduleShutdown
(the shutdownTimers map entry itself is not deleted by the source). -/
def clearTrackedTimer (rt : Runtime) (agentId : Nat) : Runtime :=
  match alistLookup rt.shutdownTimers agentId with
  | some tid =>
    { rt with pendingTimers := rt.pendingTimers.filter (fun t => decide (t.tid ≠ tid)) }
  | none => rt

/-- One iteration of the warning-interval loop of scheduleShutdown: arms an
untracked setTimeout when the threshold lies inside the remaining window. -/
def armWarningStep (now : Int) (agentId : Nat) (remainingSeconds : Int)
    (rt : Runtime) (wt : Nat) : Runtime :=
  let warningSeconds : Int := (wt : Int) * 60
  if warningSeconds < remainingSeconds then
    { rt with
        pendingTimers := rt.pendingTimers ++
          [{ tid := rt.nextTid,
             fireAt := now + (remainingSeconds - warningSeconds) * 1000,
             payload := TimerPayload.warningTimer agentId wt }],
        nextTid := rt.nextTid + 1 }
  else rt

/-- scheduleShutdown (source lines 468-498): clear the tracked timer, bail
out above one hour, arm untracked warning timeouts, then arm and track the
shutdown timeout. -/
def scheduleShutdown (rt : Runtime) (now : Int) (agentId childId : Nat)
    (remainingSeconds : Int) : Runtime :=
  let rt := clearTrackedTimer rt agentId
  if 3600 < remainingSeconds then rt
  else
    let rt := rt.state.settings.warningTimes.foldl
      (armWarningStep now agentId remainingSeconds) rt
    { rt with
        pendingTimers := rt.pendingTimers ++
          [{ tid := rt.nextTid, fireAt := now + remainingSeconds * 1000,
             payload := TimerPayload.shutdownLogout agentId childId }],
        nextTid := rt.nextTid + 1,
        shutdownTimers := alistInsert rt.shutdownTimers agentId rt.nextTid }

/-- blockBrowsers (source lines 582-609). -/
def blockBrowsers (rt : Runtime) (agentId : Nat) (childId : Nat) : Runtime :=
  match alistLookup rt.state.agents agentId with
  | none => rt
  | some agent =>
    let browsers := (agent.currentProcessData.map (fun p => p.browsers)).getD []
    let rt := browsers.foldl (fun rt b =>
      { rt with effects := rt.effects ++
        [Effect.trigger agentId
          (AgentAction.killProcess b.pid b.name "internet_quota_exhausted")] }) rt
    { rt with effects := rt.effects ++
      [Effect.trigger agentId (AgentAction.showWarning "Internet Time Exhausted"
        "Browsers are now blocked. Internet time quota has been reached." "normal")] }

/-- checkBedtime (source lines 614-652). -/
def checkBedtime (rt : Runtime) (now : Int) (lt : LocalTime) (agentId childId : Nat) :
    Runtime :=
  match alistLookup rt.state.children childId with
  | none => rt
  | some cfg =>
    match cfg.bedtime with
    | none => rt
    | some rules =>
      if rules.enabled = false then rt
      else
        let dayName := dayNames.getD lt.dayOfWeek ""
        if dayName ∈ rules.days then
          match parseTime rules.time with
          | none => rt
          | some (hour, minute) =>
            let delta := minutesUntil lt hour minute
            if delta ≤ 0 then
              enforceLogout rt now agentId (some childId) "Bedtime reached"
            else if delta ≤ 15 then
              let c := ratCeil delta
              let rt := { rt with effects := rt.effects ++
                [Effect.trigger agentId (AgentAction.showWarning "Bedtime Soon"
                  ("Computer will log out in " ++ toString c ++ " minutes for bedtime.")
                  (if delta ≤ 5 then "critical" else "normal"))] }
              { rt with effects := rt.effects ++
                [Effect.rendererBedtimeWarning agentId c] }
            else rt
        else rt

/-- One iteration of the warning loop of checkQuotasAndEnforce. -/
def quotaWarnStep (agentId : Nat) (remainingMinutes : Rat) (rt : Runtime) (wt : Nat) :
    Runtime :=
  if remainingMinutes ≤ ((wt : Int) : Rat) ∧ (((wt : Int) - 1 : Int) : Rat) < remainingMinutes then
    showTimeWarning rt agentId "computer" remainingMinutes
  else rt

/-- The tail of checkQuotasAndEnforce after the computer-allowance block:
the internet verdict gate and the bedtime check. -/
def quotaInternetAndBedtime (rt : Runtime) (now : Int) (lt : LocalTime)
    (agentId childId : Nat) (internetAllowance : Option Allowance) : Runtime :=
  let rt := match internetAllowance with
    | some ia => if ia.allowed = false then blockBrowsers rt agentId childId else rt
    | none => rt
  checkBedtime rt now lt agentId childId

/-- checkQuotasAndEnforce (source lines 384-450).  The oracle is queried for
the computer activity, then for internet when the agent has observed
browsers; a thrown oracle call lands in the catch block, which only logs. -/
def checkQuotasAndEnforce (oracle : Oracle) (rt : Runtime) (now : Int) (lt : LocalTime)
    (agentId childId : Nat) : Runtime :=
  match alistLookup rt.state.agents agentId with
  | none => rt
  | some agent =>
    match oracle childId "computer" with
    | Except.error _ => rt
    | Except.ok computerAllowance =>
      let browsers := (agent.currentProcessData.map (fun p => p.browsers)).getD []
      match (if browsers ≠ [] then oracle childId "internet"
             else Except.ok none : Except Unit (Option Allowance)) with
      | Except.error _ => rt
      | Except.ok internetAllowance =>
        match computerAllowance with
        | none => quotaInternetAndBedtime rt now lt agentId childId internetAllowance
        | some ca =>
          if ca.is_banned || ca.is_activity_blocked || !ca.allowed then
            enforceLogout rt now agentId (some childId) "Computer access blocked"
          else
            let remainingMinutes : Rat := mkRat ca.remaining_seconds 60
            let rt := rt.state.settings.warningTimes.foldl
              (quotaWarnStep agentId remainingMinutes) rt
            if ca.remaining_seconds ≤ 0 then
              enforceLogout rt now agentId (some childId) "Computer time exhausted"
            else
              let rt := scheduleShutdown rt now agentId childId ca.remaining_seconds
              quotaInternetAndBedtime rt now lt agentId childId internetAllowance

/-- handleSessionData (source lines 246-281).  The parent-account early
return happens after the session record and childId binding are updated and
skips usage tracking, the quota evaluation and the renderer notification. -/
def handleSessionData (oracle : Oracle) (rt : Runtime) (now : Int) (lt : LocalTime)
    (agentId : Nat) (data : SessionData) : Runtime :=
  match alistLookup rt.state.agents agentId with
  | none => rt
  | some agent =>
    let agent := { agent with lastSeen := now, currentSession := some data }
    let rt := { rt with state := { rt.state with
      agents := alistInsert rt.state.agents agentId agent } }
    let userMappings := (alistLookup rt.state.userMappings agentId).getD []
    match alistLookup userMappings data.username with
    | some childId =>
      let agent := { agent with childId := some childId }
      let rt := { rt with state := { rt.state with
        agents := alistInsert rt.state.agents agentId agent } }
      let parents := (alistLookup rt.state.parentAccounts agentId).getD []
      if data.username ∈ parents then rt
      else
        let rt := updateUsageRT rt now agentId childId "computer"
          { isIdle := data.isIdle, browsers := [] }
        let rt := checkQuotasAndEnforce oracle rt now lt agentId childId
        { rt with effects := rt.effects ++ [Effect.rendererSessionUpdate agentId data] }
    | none =>
      { rt with effects := rt.effects ++ [Effect.rendererSessionUpdate agentId data] }

/-- Blocked-process pattern test of handleProcessData. -/
def isBlockedName (blockedProcesses : List String) (name : String) : Bool :=
  blockedProcesses.any (fun bp => containsSub (lowerChars bp) (lowerChars name))

/-- The Violation record built for one blocked process. -/
def blockedViolation (agentId : Nat) (p : ProcEntry) (now : Int) : Violation :=
  { vtype := "blocked_process", agentId := agentId, hostname := none
    processName := some p.name, reason := some "blocked_list", timestamp := now }

/-- Loop body of the blocked-process pass of handleProcessData (source lines
300-351): conditional kill, warning, violation logging, renderer notice. -/
def blockedStep (agentId : Nat) (hostname : String) (blockedProcesses : List String)
    (now : Int) (rt : Runtime) (p : ProcEntry) : Runtime :=
  if isBlockedName blockedProcesses p.name then
    let rt :=
      if rt.state.settings.killOnViolation then
        { rt with effects := rt.effects ++
          [Effect.trigger agentId (AgentAction.killProcess p.pid p.name "blocked_process")] }
      else rt
    let rt := { rt with effects := rt.effects ++
      [Effect.trigger agentId (AgentAction.showWarning "Application Blocked"
        (p.name ++ " is not allowed right now") "normal")] }
    let rt := logViolation rt (blockedViolation agentId p now)
    { rt with effects := rt.effects ++
      [Effect.rendererBlockedProcessDetected agentId hostname p.name] }
  else rt

/-- handleProcessData (source lines 286-352).  Note: it consults only
agent.childId and never parentAccounts. -/
def handleProcessData (rt : Runtime) (now : Int) (agentId : Nat) (data : ProcessData) :
    Runtime :=
  match alistLookup rt.state.agents agentId with
  | none => rt
  | some agent =>
    match agent.childId with
    | none => rt
    | some childId =>
      let childConfig := (alistLookup rt.state.children childId).getD
        { blockedProcesses := [], bedtime := none }
      let rt :=
        if data.browsers ≠ [] then
          updateUsageRT rt now agentId childId "internet"
            { isIdle := false, browsers := data.browsers }
        else rt
      data.processes.foldl
        (blockedStep agentId agent.hostname childConfig.blockedProcesses now) rt

/-- The os:unlinkAgent IPC handler (source lines 724-743): null the binding,
disable, and clear the tracked shutdown timer. -/
def unlinkAgent (rt : Runtime) (agentId : Nat) : Runtime :=
  let rt := match alistLookup rt.state.agents agentId with
    | some agent =>
      let agent := { agent with childId := none, enabled := false }
      { rt with state := { rt.state with
          agents := alistInsert rt.state.agents agentId agent } }
    | none => rt
  match alistLookup rt.shutdownTimers agentId with
  | some tid =>
    { rt with
      pendingTimers := rt.pendingTimers.filter (fun t => decide (t.tid ≠ tid))
      shutdownTimers := alistErase rt.shutdownTimers agentId }
  | none => rt

/-- Firing a pending setTimeout: remove it from the pending set and run the
captured callback.  The grace-period callback reads the current session
username of the captured agent record. -/
def fireTimer (rt : Runtime) (now : Int) (tid : Nat) : Runtime :=
  match rt.pendingTimers.find? (fun t => t.tid == tid) with
  | none => rt
  | some t =>
    let rt := { rt with
      pendingTimers := rt.pendingTimers.filter (fun u => decide (u.tid ≠ tid)) }
    match t.payload with
    | TimerPayload.warningTimer agentId wt =>
      showTimeWarning rt agentId "computer" (wt : Rat)
    | TimerPayload.shutdownLogout agentId childId =>
      enforceLogout rt now agentId (some childId) "Computer time exhausted"
    | TimerPayload.graceLogout agentId reason =>
      let username := match alistLookup rt.state.agents agentId with
        | some agent => agent.currentSession.map (fun s => s.username)
        | none => none
      { rt with effects := rt.effects ++
        [Effect.trigger agentId (AgentAction.logoutUser username reason)] }

/-- The elapsed-seconds formula the SPEC prescribes for a usage advance
(spec: elapsed = clamp(now - cell.lastAdvanceAt, 0, 2 x reportInterval)),
stated from the words of the spec for comparison with the source. -/
def specClampElapsedSeconds (now lastAdvanceAt reportIntervalMs : Int) : Rat :=
  mkRat (min (max (now - lastAdvanceAt) 0) (2 * reportIntervalMs)) 1000

/-- A concrete agent bound to child 2 with the child user logged in. -/
def agentKid : Agent :=
  { childId := some 2, enabled := true, lastSeen := 0, hostname := "kids-pc",
    currentSession := some { username := "kid", isIdle := false },
    currentProcessData := none }

/-- A concrete plugin state with one agent, one mapped child user, one parent
account and one blocked process pattern. -/
def baseState : PluginState :=
  { agents := [(1, agentKid)],
    userMappings := [(1, [("kid", 2)])],
    parentAccounts := [(1, ["dad"])],
    children := [(2, { blockedProcesses := ["minecraft"], bedtime := none })],
    settings := defaultSettings,
    violations := [],
    activityLog := [] }

/-- A concrete runtime over baseState with no pending timers or effects. -/
def baseRT : Runtime :=
  { state := baseState, usageTracking := [], pendingTimers := [],
    shutdownTimers := [], nextTid := 0, effects := [] }

/-- A fixed local clock reading (a Friday noon). -/
def lt0 : LocalTime := { dayOfWeek := 5, hour := 12, minute := 0, second := 0, millis := 0 }

/-- Oracle verdict: banned. -/
def bannedOracle : Oracle := fun _ _ =>
  Except.ok (some { is_banned := true, is_activity_blocked := false, allowed := false,
                    remaining_seconds := 0 })

/-- Oracle verdict: allowed with 880 seconds remaining. -/
def okOracle880 : Oracle := fun _ _ =>
  Except.ok (some { is_banned := false, is_activity_blocked := false, allowed := true,
                    remaining_seconds := 880 })

/-- Oracle transport failure (checkActivity throws). -/
def downOracle : Oracle := fun _ _ => Except.error ()

/-- Pending-timer classifier: any logout timeout (grace-period or scheduled
shutdown) for the given agent. -/
def logoutTimerFor (agentId : Nat) (t : Timer) : Bool :=
  match t.payload with
  | TimerPayload.graceLogout a _ => a == agentId
  | TimerPayload.shutdownLogout a _ => a == agentId
  | _ => false

/-- Effect classifier: a shown warning whose title names the given number of
minutes remaining. -/
def isWarnTitled (agentId : Nat) (title : String) (e : Effect) : Bool :=
  match e with
  | Effect.trigger a (AgentAction.showWarning t _ _) => a == agentId && t == title
  | _ => false

/-- Runtime in which the parent user dad is logged in on agent 1 while the
agent is still bound to child 2. -/
def agentDad : Agent :=
  { agentKid with currentSession := some { username := "dad", isIdle := false } }

def rtParent : Runtime :=
  { baseRT with state := { baseState with agents := [(1, agentDad)] } }

/-- Process telemetry containing a blocked process. -/
def procMinecraft : ProcessData :=
  { browsers := [], processes := [{ pid := 42, name := "Minecraft" }] }

/-- Parent account list of an agent (state.parentAccounts[agentId] or []). -/
def parentAccountsOf (rt : Runtime) (agentId : Nat) : List String :=
  (alistLookup rt.state.parentAccounts agentId).getD []

/-- Username of the current session of an agent, when known. -/
def currentSessionUsername (rt : Runtime) (agentId : Nat) : Option String :=
  match alistLookup rt.state.agents agentId with
  | some agent => agent.currentSession.map (fun s => s.username)
  | none => none

/-- Child configuration with an enabled Friday 21:00 bedtime. -/
def childBedCfg : ChildConfig :=
  { blockedProcesses := [],
    bedtime := some { enabled := true, time := "21:00", days := ["fri"] } }

/-- Runtime whose child 2 has an enabled Friday 21:00 bedtime. -/
def rtBed : Runtime :=
  { baseRT with state := { baseState with children := [(2, childBedCfg)] } }

/-- Friday 20:50 local time: ten minutes before the configured bedtime. -/
def ltBed10 : LocalTime :=
  { dayOfWeek := 5, hour := 20, minute := 50, second := 0, millis := 0 }

/-- A usage cell with a zero accumulator last advanced at epoch 0. -/
def cellZero : Tracking := { startTime := 0, lastUpdate := 0, totalSeconds := 0 }

/-- A usage cell holding 100 accumulated seconds, last advanced at epoch 0. -/
def cellHundred : Tracking := { startTime := 0, lastUpdate := 0, totalSeconds := 100 }

/-- Pending-timer classifier: a tracked shutdown timeout for the agent. -/
def shutdownFor (agentId : Nat) (t : Timer) : Bool :=
  match t.payload with
  | TimerPayload.shutdownLogout a _ => a == agentId
  | _ => false

/-- A pending shutdown timeout must be the one recorded in shutdownTimers
for its agent. -/
def trackedOK (sdt : List (Nat × Nat)) (t : Timer) : Bool :=
  match t.payload with
  | TimerPayload.shutdownLogout a _ => alistLookup sdt a == some t.tid
  | _ => true

/-- Well-formedness of the timer bookkeeping: pending timer ids are fresh
below nextTid, pending shutdown timeouts agree with the shutdownTimers map,
and pending timer ids are pairwise distinct. -/
def timersWF (rt : Runtime) : Prop :=
  (∀ t ∈ rt.pendingTimers, t.tid < rt.nextTid) ∧
  (∀ t ∈ rt.pendingTimers, trackedOK rt.shutdownTimers t = true) ∧
  (rt.pendingTimers.map Timer.tid).Nodup

/-- Browsers currently observed for an agent (always empty in reachable
states, since currentProcessData is never assigned by the source). -/
def browsersOf (rt : Runtime) (agentId : Nat) : List ProcEntry :=
  match alistLookup rt.state.agents agentId with
  | some agent => (agent.currentProcessData.map (fun p => p.browsers)).getD []
  | none => []

/-- Effect classifier: an enforcement intent dispatched to an agent (any
triggerAction call: warn, kill, logout or lock). -/
def isTrigger (e : Effect) : Bool :=
  match e with
  | Effect.trigger _ _ => true
  | _ => false

/-- The bedtime rule currently configured for a child, when a configuration
exists. -/
def bedtimeOf (rt : Runtime) (childId : Nat) : Option Bedtime :=
  match alistLookup rt.state.children childId with
  | some cfg => cfg.bedtime
  | none => none

/-- Effect classifier: a kill-process dispatch. -/
def isKill (e : Effect) : Bool :=
  match e with
  | Effect.trigger _ (AgentAction.killProcess _ _ _) => true
  | _ => false

/-- Remove the kill dispatches from an effect sequence. -/
def stripKills (l : List Effect) : List Effect := l.filter (fun e => !(isKill e))

/-- Effects appended by a runtime transition, relative to a starting
runtime whose effects are a prefix. -/
def newEffects (rt2 rt1 : Runtime) : List Effect := rt2.effects.drop rt1.effects.length

/-- The effect group produced for one blocked process by the loop body of
handleProcessData. -/
def blockedOneEffects (s : Settings) (agentId : Nat) (hostname : String) (now : Int)
    (p : ProcEntry) : List Effect :=
  (if s.killOnViolation then
    [Effect.trigger agentId (AgentAction.killProcess p.pid p.name "blocked_process")]
   else []) ++
  [Effect.trigger agentId (AgentAction.showWarning "Application Blocked"
    (p.name ++ " is not allowed right now") "normal")] ++
  (if s.notifyParent then [Effect.rendererViolation (blockedViolation agentId p now)]
   else []) ++
  [Effect.rendererBlockedProcessDetected agentId hostname p.name]

/-- Concatenated effect groups for a list of (already filtered) blocked
processes. -/
def blockedNews (s : Settings) (agentId : Nat) (hostname : String) (now : Int) :
    List ProcEntry → List Effect
  | [] => []
  | p :: ps => blockedOneEffects s agentId hostname now p ++
      blockedNews s agentId hostname now ps

/-- Flip only the killOnViolation switch of a runtime. -/
def setKillOnViolation (rt : Runtime) (b : Bool) : Runtime :=
  { rt with state := { rt.state with settings :=
    { rt.state.settings with killOnViolation := b } } }

theorem ratAdd_eq_add (a b : Rat) : ratAdd a b = a + b := by
  have ha : ((a.den : Int)) ≠ 0 := by exact_mod_cast a.den_nz
  have hb : ((b.den : Int)) ≠ 0 := by exact_mod_cast b.den_nz
  rw [ratAdd, Rat.mkRat_eq_divInt]
  conv_rhs => rw [← Rat.num_divInt_den a, ← Rat.num_divInt_den b]
  rw [Rat.divInt_add_divInt _ _ ha hb]
  push_cast
  ring_nf

theorem mkRat_nonneg_of (n : Int) (d : Nat) (h : 0 ≤ n) : 0 ≤ mkRat n d := by
  rw [Rat.mkRat_eq_div]
  positivity

/-- C6 counterexample: a usage advance 100 minutes after the previous one
adds 6000 seconds to the accumulator, while the clamp formula of the claim
would allow at most 60 seconds (2 x the 30000 ms report interval). -/
theorem updateUsage_elapsed_not_clamped :
    cellZero.totalSeconds = 0 ∧
    (updateUsageTracking true (some cellZero) 6000000 "computer"
      { isIdle := false, browsers := [] }).totalSeconds = 6000 ∧
    specClampElapsedSeconds 6000000 cellZero.lastUpdate
      defaultSettings.monitorInterval = 60 ∧
    (6000 : Rat) ≠ 60 := by decide

/-- C6 (amended): the elapsed time added by updateUsageTracking is exactly
(now - lastUpdate) / 1000 seconds whenever the activity counting condition
holds and zero otherwise; it is not clamped to [0, 2 x reportInterval]. -/
theorem updateUsage_elapsed_formula (pauseOnIdle : Bool) (cell : Tracking) (now : Int)
    (activity : String) (data : UsageTelemetry) :
    (updateUsageTracking pauseOnIdle (some cell) now activity data).totalSeconds =
      (if (activity = "internet" ∧ data.browsers ≠ []) ∨
          (activity = "computer" ∧ data.isIdle = false) ∨
          (activity = "computer" ∧ data.isIdle = true ∧ pauseOnIdle = false)
       then cell.totalSeconds + ((now - cell.lastUpdate : Int) : Rat) / 1000
       else cell.totalSeconds) ∧
    (updateUsageTracking pauseOnIdle (some cell) now activity data).lastUpdate = now := by
  refine ⟨?_, rfl⟩
  show (if activity = "internet" ∧ data.browsers ≠ [] then
          ratAdd cell.totalSeconds (mkRat (now - cell.lastUpdate) 1000)
        else if activity = "computer" ∧ data.isIdle = false then
          ratAdd cell.totalSeconds (mkRat (now - cell.lastUpdate) 1000)
        else if activity = "computer" ∧ data.isIdle = true ∧ pauseOnIdle = false then
          ratAdd cell.totalSeconds (mkRat (now - cell.lastUpdate) 1000)
        else cell.totalSeconds) = _
  have he : ratAdd cell.totalSeconds (mkRat (now - cell.lastUpdate) 1000) =
      cell.totalSeconds + ((now - cell.lastUpdate : Int) : Rat) / 1000 := by
    rw [ratAdd_eq_add, Rat.mkRat_eq_div]
    norm_num
  split_ifs <;> first | exact he | rfl | tauto

/-- C7 counterexample: an advance two days after the previous one lands on a
different local date, yet the accumulator keeps the prior 100 seconds (and
becomes 172900, strictly more than the own contribution 172800 of the
advance); there is also no warnings-fired set in the cell to clear. -/
theorem updateUsage_no_daily_reset_cex :
    localDate 0 cellHundred.lastUpdate ≠ localDate 0 172800000 ∧
    (updateUsageTracking true (some cellHundred) 172800000 "computer"
      { isIdle := false, browsers := [] }).totalSeconds = 172900 ∧
    ((172900 : Rat) ≤ 172800) = False := by decide

/-- C7 (amended): updateUsageTracking performs no daily rollover at all: as
long as the clock did not move backwards, the accumulated seconds never
decrease, even when the local date of the advance differs from the local
date of the previous advance, for every fixed-offset local calendar. -/
theorem updateUsage_accumulates_across_days (pauseOnIdle : Bool) (cell : Tracking)
    (offsetMs now : Int) (activity : String) (data : UsageTelemetry)
    (hday : localDate offsetMs cell.lastUpdate ≠ localDate offsetMs now)
    (hle : cell.lastUpdate ≤ now) :
    cell.totalSeconds ≤
      (updateUsageTracking pauseOnIdle (some cell) now activity data).totalSeconds := by
  have he : cell.totalSeconds ≤
      ratAdd cell.totalSeconds (mkRat (now - cell.lastUpdate) 1000) := by
    rw [ratAdd_eq_add]
    have : (0 : Rat) ≤ mkRat (now - cell.lastUpdate) 1000 :=
      mkRat_nonneg_of _ _ (by omega)
    linarith
  show cell.totalSeconds ≤
    (if activity = "internet" ∧ data.browsers ≠ [] then
      ratAdd cell.totalSeconds (mkRat (now - cell.lastUpdate) 1000)
    else if activity = "computer" ∧ data.isIdle = false then
      ratAdd cell.totalSeconds (mkRat (now - cell.lastUpdate) 1000)
    else if activity = "computer" ∧ data.isIdle = true ∧ pauseOnIdle = false then
      ratAdd cell.totalSeconds (mkRat (now - cell.lastUpdate) 1000)
    else cell.totalSeconds)
  split_ifs <;> first | exact he | exact le_refl _

/-- C7 witness: the amended theorem applied at a concrete two-day gap. -/
theorem updateUsage_accumulates_across_days_witness :
    cellHundred.totalSeconds ≤
      (updateUsageTracking true (some cellHundred) 172800000 "computer"
        { isIdle := false, browsers := [] }).totalSeconds :=
  updateUsage_accumulates_across_days true cellHundred 0 172800000 "computer"
    { isIdle := false, browsers := [] } (by decide) (by decide)

/-- C8 counterexample: ten minutes before bedtime (a value outside the
claimed warning set for 15, 5 and 1 minutes) the source still emits a
bedtime warning, on every evaluation. -/
theorem checkBedtime_warns_at_ten_minutes :
    minutesUntil ltBed10 21 0 = 10 ∧
    ((10 : Rat) = 15 ∨ (10 : Rat) = 5 ∨ (10 : Rat) = 1) = False ∧
    (checkBedtime rtBed 0 ltBed10 1 2).effects =
      [ Effect.trigger 1 (AgentAction.showWarning "Bedtime Soon"
          "Computer will log out in 10 minutes for bedtime." "normal"),
        Effect.rendererBedtimeWarning 1 10 ] := by decide

/-- C8 (amended): on an enabled bedtime day, with delta the minutes until
the bedtime instant: delta at most 0 enforces a logout with the configured
grace period; every evaluation with 0 < delta at most 15 emits a bedtime
warning (with urgency critical exactly when delta is at most 5) with no
once-per-day gating; and delta above 15 does nothing. -/
theorem checkBedtime_behavior (rt : Runtime) (now : Int) (lt : LocalTime) (a c : Nat)
    (cfg : ChildConfig) (rules : Bedtime) (H M : Nat)
    (hc : alistLookup rt.state.children c = some cfg)
    (hb : cfg.bedtime = some rules)
    (hen : rules.enabled = true)
    (hd : dayNames.getD lt.dayOfWeek "" ∈ rules.days)
    (hp : parseTime rules.time = some (H, M)) :
    (minutesUntil lt H M ≤ 0 →
      checkBedtime rt now lt a c = enforceLogout rt now a (some c) "Bedtime reached") ∧
    (0 < minutesUntil lt H M → minutesUntil lt H M ≤ 15 →
      (checkBedtime rt now lt a c).effects = rt.effects ++
        [Effect.trigger a (AgentAction.showWarning "Bedtime Soon"
            ("Computer will log out in " ++ toString (ratCeil (minutesUntil lt H M)) ++
              " minutes for bedtime.")
            (if minutesUntil lt H M ≤ 5 then "critical" else "normal")),
          Effect.rendererBedtimeWarning a (ratCeil (minutesUntil lt H M))] ∧
      (checkBedtime rt now lt a c).pendingTimers = rt.pendingTimers) ∧
    (15 < minutesUntil lt H M → checkBedtime rt now lt a c = rt) := by
  have hday := eq_true hd
  simp only [checkBedtime, hc, hb, hen, hp, hday, if_true]
  refine ⟨fun h0 => ?_, fun hlo hhi => ?_, fun hgt => ?_⟩
  · simp only [if_neg (by simp : ¬ (true = false)), if_pos h0]
  · simp only [if_neg (by simp : ¬ (true = false)), if_neg (by linarith : ¬ minutesUntil lt H M ≤ 0),
      if_pos hhi]
    refine ⟨?_, ?_⟩ <;> simp [List.append_assoc]
  · simp only [if_neg (by simp : ¬ (true = false)), if_neg (by linarith : ¬ minutesUntil lt H M ≤ 0),
      if_neg (by linarith : ¬ minutesUntil lt H M ≤ 15)]

/-- C8 witness: the amended bedtime characterization applied ten minutes
before a Friday 21:00 bedtime. -/
theorem checkBedtime_behavior_witness :
    (checkBedtime rtBed 0 ltBed10 1 2).effects = rtBed.effects ++
      [Effect.trigger 1 (AgentAction.showWarning "Bedtime Soon"
          ("Computer will log out in " ++ toString (ratCeil (minutesUntil ltBed10 21 0)) ++
            " minutes for bedtime.")
          (if minutesUntil ltBed10 21 0 ≤ 5 then "critical" else "normal")),
        Effect.rendererBedtimeWarning 1 (ratCeil (minutesUntil ltBed10 21 0))] ∧
    (checkBedtime rtBed 0 ltBed10 1 2).pendingTimers = rtBed.pendingTimers :=
  (checkBedtime_behavior rtBed 0 ltBed10 1 2 childBedCfg
    { enabled := true, time := "21:00", days := ["fri"] } 21 0 rfl rfl rfl
    (by decide) (by decide)).2.1 (by decide) (by decide)

theorem alistLookup_filterKey {κ α : Type} [DecidableEq κ] (l : List (κ × α)) (k : κ) :
    alistLookup (l.filter (fun p => decide (p.1 ≠ k))) k = none := by
  induction l with
  | nil => rfl
  | cons p rest ih =>
    rcases p with ⟨k1, v1⟩
    by_cases h : k1 = k
    · have hd : decide ((k1, v1).1 ≠ k) = false := by simpa using h
      simp only [List.filter, hd]
      exact ih
    · have hd : decide ((k1, v1).1 ≠ k) = true := by simpa using h
      simp only [List.filter, hd, alistLookup]
      rw [if_neg h]
      exact ih

theorem alistLookup_filterKey_ne {κ α : Type} [DecidableEq κ] (l : List (κ × α))
    (k k2 : κ) (h : k2 ≠ k) :
    alistLookup (l.filter (fun p => decide (p.1 ≠ k))) k2 = alistLookup l k2 := by
  induction l with
  | nil => rfl
  | cons p rest ih =>
    rcases p with ⟨k1, v1⟩
    by_cases h1 : k1 = k
    · have hd : decide ((k1, v1).1 ≠ k) = false := by simpa using h1
      simp only [List.filter, hd]
      rw [ih]
      simp only [alistLookup]
      rw [if_neg (fun hk : k1 = k2 => h (h1 ▸ hk.symm ▸ rfl))]
    · have hd : decide ((k1, v1).1 ≠ k) = true := by simpa using h1
      simp only [List.filter, hd, alistLookup]
      by_cases h2 : k1 = k2
      · rw [if_pos h2, if_pos h2]
      · rw [if_neg h2, if_neg h2]
        exact ih

theorem alistLookup_insert_self {κ α : Type} [DecidableEq κ] (l : List (κ × α))
    (k : κ) (v : α) : alistLookup (alistInsert l k v) k = some v := by
  simp [alistInsert, alistLookup]

theorem alistLookup_insert_ne {κ α : Type} [DecidableEq κ] (l : List (κ × α))
    (k k2 : κ) (v : α) (h : k2 ≠ k) :
    alistLookup (alistInsert l k v) k2 = alistLookup l k2 := by
  simp only [alistInsert, alistLookup]
  rw [if_neg (fun hk : k = k2 => h hk.symm)]
  exact alistLookup_filterKey_ne l k k2 h

theorem alistLookup_erase_self {κ α : Type} [DecidableEq κ] (l : List (κ × α)) (k : κ) :
    alistLookup (alistErase l k) k = none := alistLookup_filterKey l k

theorem shutdownFor_trackedOK_tid {sdt : List (Nat × Nat)} {t : Timer} {a : Nat}
    (hs : shutdownFor a t = true) (ht : trackedOK sdt t = true) :
    alistLookup sdt a = some t.tid := by
  rcases t with ⟨tid, fa, p⟩
  cases p with
  | warningTimer a2 w => simp [shutdownFor] at hs
  | graceLogout a2 r => simp [shutdownFor] at hs
  | shutdownLogout a2 c =>
    simp only [shutdownFor, beq_iff_eq] at hs
    subst hs
    simpa [trackedOK] using ht

theorem timersWF_shutdown_atMostOne (rt : Runtime) (h : timersWF rt) (a : Nat) :
    (rt.pendingTimers.filter (shutdownFor a)).length ≤ 1 := by
  obtain ⟨hbound, htr, hnd⟩ := h
  cases hfl : rt.pendingTimers.filter (shutdownFor a) with
  | nil => simp
  | cons t1 tl =>
    cases tl with
    | nil => simp
    | cons t2 tl2 =>
      exfalso
      have h1 : t1 ∈ rt.pendingTimers.filter (shutdownFor a) := by
        rw [hfl]; exact List.mem_cons_self _ _
      have h2 : t2 ∈ rt.pendingTimers.filter (shutdownFor a) := by
        rw [hfl]; exact List.mem_cons_of_mem _ (List.mem_cons_self _ _)
      have m1 := List.mem_filter.mp h1
      have m2 := List.mem_filter.mp h2
      have e1 := shutdownFor_trackedOK_tid m1.2 (htr _ m1.1)
      have e2 := shutdownFor_trackedOK_tid m2.2 (htr _ m2.1)
      have heq : t1.tid = t2.tid := by
        rw [e1] at e2
        exact (Option.some_inj.mp e2)
      have hsub : List.Sublist ((rt.pendingTimers.filter (shutdownFor a)).map Timer.tid)
          (rt.pendingTimers.map Timer.tid) := (List.filter_sublist _).map _
      have hnd2 := hnd.sublist hsub
      rw [hfl] at hnd2
      rw [List.map_cons, List.map_cons, List.nodup_cons] at hnd2
      exact hnd2.1 (by rw [heq]; exact List.mem_cons_self _ _)

theorem clearTrackedTimer_spec (rt : Runtime) (a : Nat) (h : timersWF rt) :
    timersWF (clearTrackedTimer rt a) ∧
    (∀ t ∈ (clearTrackedTimer rt a).pendingTimers, shutdownFor a t = false) ∧
    (clearTrackedTimer rt a).shutdownTimers = rt.shutdownTimers ∧
    (clearTrackedTimer rt a).state = rt.state ∧
    (clearTrackedTimer rt a).nextTid = rt.nextTid := by
  obtain ⟨hb, htr, hnd⟩ := h
  unfold clearTrackedTimer
  cases hl : alistLookup rt.shutdownTimers a with
  | none =>
    refine ⟨⟨hb, htr, hnd⟩, ?_, rfl, rfl, rfl⟩
    intro t ht
    cases hval : shutdownFor a t with
    | false => rfl
    | true =>
      have := shutdownFor_trackedOK_tid hval (htr t ht)
      rw [hl] at this
      exact Option.noConfusion this
  | some tid =>
    refine ⟨⟨?_, ?_, ?_⟩, ?_, rfl, rfl, rfl⟩
    · intro t ht
      exact hb t (List.mem_filter.mp ht).1
    · intro t ht
      exact htr t (List.mem_filter.mp ht).1
    · exact hnd.sublist ((List.filter_sublist _).map _)
    · intro t ht
      have hm := List.mem_filter.mp ht
      cases hval : shutdownFor a t with
      | false => rfl
      | true =>
        have he := shutdownFor_trackedOK_tid hval (htr t hm.1)
        rw [hl] at he
        have : t.tid = tid := (Option.some_inj.mp he).symm
        exact absurd this (of_decide_eq_true hm.2)

theorem armWarningStep_spec (now : Int) (a : Nat) (rs : Int) (rt : Runtime) (wt : Nat)
    (h : timersWF rt) (hfree : ∀ t ∈ rt.pendingTimers, shutdownFor a t = false) :
    timersWF (armWarningStep now a rs rt wt) ∧
    (∀ t ∈ (armWarningStep now a rs rt wt).pendingTimers, shutdownFor a t = false) ∧
    (armWarningStep now a rs rt wt).shutdownTimers = rt.shutdownTimers ∧
    (armWarningStep now a rs rt wt).state = rt.state := by
  obtain ⟨hb, htr, hnd⟩ := h
  unfold armWarningStep
  dsimp only
  split_ifs with hc
  · refine ⟨⟨?_, ?_, ?_⟩, ?_, rfl, rfl⟩
    · intro t ht
      rcases List.mem_append.mp ht with h1 | h1
      · exact Nat.lt_succ_of_lt (hb t h1)
      · rw [List.mem_singleton.mp h1]
        exact Nat.lt_succ_self _
    · intro t ht
      rcases List.mem_append.mp ht with h1 | h1
      · exact htr t h1
      · rw [List.mem_singleton.mp h1]
        rfl
    · rw [List.map_append]
      rw [List.nodup_append]
      refine ⟨hnd, List.nodup_singleton _, ?_⟩
      intro x hx
      have : x < rt.nextTid := by
        rcases List.mem_map.mp hx with ⟨t, ht, rfl⟩
        exact hb t ht
      simp only [List.map_cons, List.map_nil, List.mem_singleton]
      omega
    · intro t ht
      rcases List.mem_append.mp ht with h1 | h1
      · exact hfree t h1
      · rw [List.mem_singleton.mp h1]
        rfl
  · exact ⟨⟨hb, htr, hnd⟩, hfree, rfl, rfl⟩

theorem armWarningFold_spec (l : List Nat) (now : Int) (a : Nat) (rs : Int) :
    ∀ rt : Runtime, timersWF rt → (∀ t ∈ rt.pendingTimers, shutdownFor a t = false) →
      timersWF (l.foldl (armWarningStep now a rs) rt) ∧
      (∀ t ∈ (l.foldl (armWarningStep now a rs) rt).pendingTimers,
        shutdownFor a t = false) ∧
      (l.foldl (armWarningStep now a rs) rt).shutdownTimers = rt.shutdownTimers ∧
      (l.foldl (armWarningStep now a rs) rt).state = rt.state := by
  induction l with
  | nil => exact fun rt h hfree => ⟨h, hfree, rfl, rfl⟩
  | cons wt rest ih =>
    intro rt h hfree
    obtain ⟨h1, h2, h3, h4⟩ := armWarningStep_spec now a rs rt wt h hfree
    obtain ⟨g1, g2, g3, g4⟩ := ih (armWarningStep now a rs rt wt) h1 h2
    exact ⟨g1, g2, g3.trans h3, g4.trans h4⟩

theorem scheduleShutdown_wf (rt : Runtime) (now : Int) (a c : Nat) (rs : Int)
    (h : timersWF rt) : timersWF (scheduleShutdown rt now a c rs) := by
  obtain ⟨hwf1, hfree1, hsdt1, hst1, _⟩ := clearTrackedTimer_spec rt a h
  unfold scheduleShutdown
  split_ifs with hrs
  · exact hwf1
  · obtain ⟨⟨hb, htr, hnd⟩, hfree, hsdt, _⟩ := armWarningFold_spec
      ((clearTrackedTimer rt a).state.settings.warningTimes) now a rs
      (clearTrackedTimer rt a) hwf1 hfree1
    refine ⟨?_, ?_, ?_⟩
    · intro t ht
      rcases List.mem_append.mp ht with h1 | h1
      · exact Nat.lt_succ_of_lt (hb t h1)
      · rw [List.mem_singleton.mp h1]
        exact Nat.lt_succ_self _
    · intro t ht
      rcases List.mem_append.mp ht with h1 | h1
      · rcases htp : t.payload with _ | ⟨a2, c2⟩ | _
        · simp [trackedOK, htp]
        · have hne : a2 ≠ a := by
            intro hcon
            have : shutdownFor a t = true := by
              simp [shutdownFor, htp, hcon]
            rw [hfree t h1] at this
            exact Bool.noConfusion this
          have := htr t h1
          simp only [trackedOK, htp, beq_iff_eq] at this ⊢
          rw [alistLookup_insert_ne _ _ _ _ hne]
          exact this
        · simp [trackedOK, htp]
      · rw [List.mem_singleton.mp h1]
        simp only [trackedOK, beq_iff_eq]
        exact alistLookup_insert_self _ _ _
    · rw [List.map_append, List.nodup_append]
      refine ⟨hnd, List.nodup_singleton _, ?_⟩
      intro x hx
      rcases List.mem_map.mp hx with ⟨t, ht, rfl⟩
      have hlt := hb t ht
      simp only [List.map_cons, List.map_nil, List.mem_singleton]
      omega

/-- C1 counterexample: two consecutive quota evaluations with a banned
verdict (30 seconds apart, the report interval) each call enforceLogout,
whose grace-period logout timeout is not recorded in shutdownTimers and is
never cancelled: afterwards agent 1 has TWO scheduled-but-unfired logout
timeouts, both with fire instants still in the future. -/
theorem enforceLogout_double_logout_timers :
    ((checkQuotasAndEnforce bannedOracle
        (checkQuotasAndEnforce bannedOracle baseRT 0 lt0 1 2) 30000 lt0 1
         2).pendingTimers.filter (logoutTimerFor 1)).length = 2 ∧
    ((checkQuotasAndEnforce bannedOracle
        (checkQuotasAndEnforce bannedOracle baseRT 0 lt0 1 2) 30000 lt0 1
         2).pendingTimers.filter (logoutTimerFor 1)).all
      (fun t => decide (30000 < t.fireAt)) = true := by decide

/-- C1 (amended): the cancel-then-arm discipline holds only for the tracked
shutdown timeout: in a well-formed runtime every agent has at most one
pending tracked shutdown timeout, and scheduleShutdown preserves
well-formedness (it clears the previously tracked timeout before arming a
new one); grace-period logout timeouts armed by enforceLogout are untracked
and are not covered by any such bound. -/
theorem scheduleShutdown_tracked_shutdown_atMostOne (rt : Runtime) (now : Int)
    (a c : Nat) (rs : Int) (h : timersWF rt) :
    timersWF (scheduleShutdown rt now a c rs) ∧
    ∀ x, ((scheduleShutdown rt now a c rs).pendingTimers.filter
      (shutdownFor x)).length ≤ 1 :=
  have hwf := scheduleShutdown_wf rt now a c rs h
  ⟨hwf, fun x => timersWF_shutdown_atMostOne _ hwf x⟩

/-- C1 witness: the amended theorem applied to the concrete base runtime
with 880 seconds remaining. -/
theorem scheduleShutdown_tracked_shutdown_atMostOne_witness :
    timersWF (scheduleShutdown baseRT 0 1 2 880) ∧
    ∀ x, ((scheduleShutdown baseRT 0 1 2 880).pendingTimers.filter
      (shutdownFor x)).length ≤ 1 :=
  scheduleShutdown_tracked_shutdown_atMostOne baseRT 0 1 2 880
    ⟨by decide, by decide, by decide⟩

/-- C9: when an oracle check throws during a quota evaluation (the computer
check, or the internet check made when browsers are observed), the whole
evaluation lands in the catch block: the runtime is unchanged, so no logout
or warning is emitted, no state is touched, and every previously armed
timer (including a logout timer from an earlier successful evaluation) is
still pending and will still fire. -/
theorem checkQuotas_oracle_error_noop (oracle : Oracle) (rt : Runtime) (now : Int)
    (lt : LocalTime) (a c : Nat)
    (h : oracle c "computer" = Except.error () ∨
         (browsersOf rt a ≠ [] ∧ oracle c "internet" = Except.error ())) :
    checkQuotasAndEnforce oracle rt now lt a c = rt := by
  unfold checkQuotasAndEnforce
  cases hag : alistLookup rt.state.agents a with
  | none => rfl
  | some agent =>
    rcases h with herr | ⟨hbr, herr2⟩
    · rw [herr]
    · cases hco : oracle c "computer" with
      | error e => rfl
      | ok ca =>
        have hb2 : ((agent.currentProcessData.map (fun p => p.browsers)).getD []) ≠ [] := by
          unfold browsersOf at hbr
          rw [hag] at hbr
          exact hbr
        dsimp only
        rw [if_pos hb2, herr2]

/-- C9 witness: a transport failure on the concrete base runtime with one
previously armed timer leaves the runtime untouched. -/
theorem checkQuotas_oracle_error_noop_witness :
    checkQuotasAndEnforce downOracle
      (checkQuotasAndEnforce bannedOracle baseRT 0 lt0 1 2) 30000 lt0 1 2 =
      checkQuotasAndEnforce bannedOracle baseRT 0 lt0 1 2 :=
  checkQuotas_oracle_error_noop downOracle
    (checkQuotasAndEnforce bannedOracle baseRT 0 lt0 1 2) 30000 lt0 1 2
    (Or.inl rfl)

/-- C5: when the oracle verdict for the computer activity reports banned,
activity-blocked, or not allowed, the quota evaluation is EXACTLY
enforceLogout with reason Computer access blocked: no threshold warning, no
shutdown scheduling, no browser blocking and no bedtime check happen in
that evaluation, independent of the usage accumulators (the hypothesis on
currentProcessData holds in every reachable state, because the source never
assigns that field, so the internet verdict is never requested). -/
theorem checkQuotas_banned_logout_only (oracle : Oracle) (rt : Runtime) (now : Int)
    (lt : LocalTime) (a c : Nat) (agent : Agent) (ca : Allowance)
    (hag : alistLookup rt.state.agents a = some agent)
    (hpd : agent.currentProcessData = none)
    (hca : oracle c "computer" = Except.ok (some ca))
    (hban : (ca.is_banned || ca.is_activity_blocked || !ca.allowed) = true) :
    checkQuotasAndEnforce oracle rt now lt a c =
      enforceLogout rt now a (some c) "Computer access blocked" := by
  unfold checkQuotasAndEnforce
  rw [hag, hca]
  dsimp only
  rw [hpd]
  simp only [Option.map_none', Option.getD_none]
  rw [if_neg (by simp : ¬ (([] : List ProcEntry) ≠ []))]
  dsimp only
  rw [if_pos hban]

/-- C5 witness: the banned oracle on the concrete base runtime. -/
theorem checkQuotas_banned_logout_only_witness :
    checkQuotasAndEnforce bannedOracle baseRT 0 lt0 1 2 =
      enforceLogout baseRT 0 1 (some 2) "Computer access blocked" :=
  checkQuotas_banned_logout_only bannedOracle baseRT 0 lt0 1 2 agentKid
    { is_banned := true, is_activity_blocked := false, allowed := false,
      remaining_seconds := 0 }
    rfl rfl rfl rfl

/-- C3 counterexample: agent 1 is bound to child 2 while the parent account
dad is the current session user; process telemetry with a blocked process
still dispatches a kill intent (and a warning), because handleProcessData
never consults parentAccounts. -/
theorem processData_parent_account_kill_emitted :
    currentSessionUsername rtParent 1 = some "dad" ∧
    "dad" ∈ parentAccountsOf rtParent 1 ∧
    Effect.trigger 1 (AgentAction.killProcess 42 "Minecraft" "blocked_process")
      ∈ (handleProcessData rtParent 1000 1 procMinecraft).effects ∧
    Effect.trigger 1 (AgentAction.showWarning "Application Blocked"
      "Minecraft is not allowed right now" "normal")
      ∈ (handleProcessData rtParent 1000 1 procMinecraft).effects := by decide

/-- C3 (amended): SESSION telemetry for a username listed in
parentAccounts[agentId] emits no enforcement intent, arms no timer and adds
no usage, while the session record is still tracked (lastSeen and
currentSession are updated); PROCESS telemetry, however, does not consult
parentAccounts at all (see the counterexample). -/
theorem handleSessionData_parent_no_enforcement (oracle : Oracle) (rt : Runtime)
    (now : Int) (lt : LocalTime) (a : Nat) (d : SessionData)
    (hpar : d.username ∈ parentAccountsOf rt a) :
    (handleSessionData oracle rt now lt a d).effects.filter isTrigger =
      rt.effects.filter isTrigger ∧
    (handleSessionData oracle rt now lt a d).pendingTimers = rt.pendingTimers ∧
    (handleSessionData oracle rt now lt a d).usageTracking = rt.usageTracking ∧
    (∀ agent, alistLookup rt.state.agents a = some agent →
      ∃ agent2, alistLookup (handleSessionData oracle rt now lt a d).state.agents a =
        some agent2 ∧ agent2.currentSession = some d ∧ agent2.lastSeen = now) := by
  unfold handleSessionData
  cases hag : alistLookup rt.state.agents a with
  | none =>
    refine ⟨rfl, rfl, rfl, ?_⟩
    intro agent hagent
    simp [hag] at hagent
  | some agent =>
    dsimp only
    cases hm : alistLookup ((alistLookup rt.state.userMappings a).getD []) d.username with
    | some childId =>
      dsimp only
      have hpar2 : d.username ∈ (alistLookup rt.state.parentAccounts a).getD [] := hpar
      rw [if_pos hpar2]
      refine ⟨rfl, rfl, rfl, ?_⟩
      intro agent0 hagent0
      exact ⟨_, alistLookup_insert_self _ _ _, rfl, rfl⟩
    | none =>
      dsimp only
      refine ⟨?_, rfl, rfl, ?_⟩
      · rw [List.filter_append]
        simp [isTrigger]
      · intro agent0 hagent0
        exact ⟨_, alistLookup_insert_self _ _ _, rfl, rfl⟩

/-- C3 witness: parent dad logged in on agent 1; session telemetry leaves
the trigger effects, timers and usage untouched while tracking the session. -/
theorem handleSessionData_parent_no_enforcement_witness :
    (handleSessionData okOracle880 rtParent 0 lt0 1
        { username := "dad", isIdle := false }).effects.filter isTrigger =
      rtParent.effects.filter isTrigger ∧
    (handleSessionData okOracle880 rtParent 0 lt0 1
        { username := "dad", isIdle := false }).pendingTimers = rtParent.pendingTimers ∧
    (handleSessionData okOracle880 rtParent 0 lt0 1
        { username := "dad", isIdle := false }).usageTracking = rtParent.usageTracking ∧
    (∀ agent, alistLookup rtParent.state.agents 1 = some agent →
      ∃ agent2, alistLookup (handleSessionData okOracle880 rtParent 0 lt0 1
          { username := "dad", isIdle := false }).state.agents 1 = some agent2 ∧
        agent2.currentSession = some { username := "dad", isIdle := false } ∧
        agent2.lastSeen = 0) :=
  handleSessionData_parent_no_enforcement okOracle880 rtParent 0 lt0 1
    { username := "dad", isIdle := false } (by decide)

/-- C4 counterexample: after a banned verdict arms a grace-period logout
timeout for agent 1, unlinkAgent(1) runs, yet the untracked timeout is
still pending and firing it still dispatches the logout-user action for
agent 1, after the unlink. -/
theorem grace_logout_fires_after_unlink :
    (Effect.trigger 1 (AgentAction.logoutUser (some "kid") "Computer access blocked")
      ∈ (fireTimer (unlinkAgent
          (checkQuotasAndEnforce bannedOracle baseRT 0 lt0 1 2) 1) 60000 0).effects) ∧
    (fireTimer (unlinkAgent
        (checkQuotasAndEnforce bannedOracle baseRT 0 lt0 1 2) 1) 60000 0).effects.length =
      (unlinkAgent (checkQuotasAndEnforce bannedOracle baseRT 0 lt0 1 2) 1).effects.length
        + 1 := by decide

/-- C4 (amended): unlinkAgent clears the binding and cancels the TRACKED
shutdown timeout (the shutdownTimers entry and its pending timer), and
process telemetry arriving right after the unlink is a no-op; but untracked
warning timeouts and grace-period logout timeouts survive the unlink and
still fire (see the counterexample). -/
theorem unlinkAgent_cancels_tracked_timer (rt : Runtime) (a : Nat) (now : Int)
    (d : ProcessData) :
    alistLookup (unlinkAgent rt a).shutdownTimers a = none ∧
    (∀ tid, alistLookup rt.shutdownTimers a = some tid →
      ∀ t ∈ (unlinkAgent rt a).pendingTimers, t.tid ≠ tid) ∧
    handleProcessData (unlinkAgent rt a) now a d = unlinkAgent rt a := by
  unfold unlinkAgent
  cases hag : alistLookup rt.state.agents a with
  | none =>
    dsimp only
    cases hsd : alistLookup rt.shutdownTimers a with
    | none =>
      refine ⟨hsd, ?_, ?_⟩
      · intro tid0 htid0
        exact Option.noConfusion htid0
      · unfold handleProcessData
        dsimp only
        rw [hag]
    | some tid =>
      refine ⟨alistLookup_erase_self _ _, ?_, ?_⟩
      · intro tid0 htid0 t ht
        rw [← Option.some_inj.mp htid0]
        exact of_decide_eq_true (List.mem_filter.mp ht).2
      · unfold handleProcessData
        dsimp only
        rw [hag]
  | some agent =>
    dsimp only
    cases hsd : alistLookup rt.shutdownTimers a with
    | none =>
      refine ⟨hsd, ?_, ?_⟩
      · intro tid0 htid0
        exact Option.noConfusion htid0
      · unfold handleProcessData
        dsimp only
        rw [alistLookup_insert_self]
    | some tid =>
      refine ⟨alistLookup_erase_self _ _, ?_, ?_⟩
      · intro tid0 htid0 t ht
        rw [← Option.some_inj.mp htid0]
        exact of_decide_eq_true (List.mem_filter.mp ht).2
      · unfold handleProcessData
        dsimp only
        rw [alistLookup_insert_self]

/-- C4 witness: the amended theorem at the concrete runtime with a tracked
shutdown timer armed by an allowed verdict with 880 seconds remaining. -/
theorem unlinkAgent_cancels_tracked_timer_witness :
    alistLookup (unlinkAgent
      (checkQuotasAndEnforce okOracle880 baseRT 0 lt0 1 2) 1).shutdownTimers 1 = none ∧
    (∀ tid, alistLookup
        (checkQuotasAndEnforce okOracle880 baseRT 0 lt0 1 2).shutdownTimers 1 = some tid →
      ∀ t ∈ (unlinkAgent
          (checkQuotasAndEnforce okOracle880 baseRT 0 lt0 1 2) 1).pendingTimers,
        t.tid ≠ tid) ∧
    handleProcessData (unlinkAgent
        (checkQuotasAndEnforce okOracle880 baseRT 0 lt0 1 2) 1) 30000 1 procMinecraft =
      unlinkAgent (checkQuotasAndEnforce okOracle880 baseRT 0 lt0 1 2) 1 :=
  unlinkAgent_cancels_tracked_timer
    (checkQuotasAndEnforce okOracle880 baseRT 0 lt0 1 2) 1 30000 procMinecraft

theorem armWarningFold_effects (l : List Nat) (now : Int) (a : Nat) (rs : Int) :
    ∀ rt : Runtime, (l.foldl (armWarningStep now a rs) rt).effects = rt.effects ∧
      (l.foldl (armWarningStep now a rs) rt).state = rt.state := by
  induction l with
  | nil => exact fun rt => ⟨rfl, rfl⟩
  | cons wt rest ih =>
    intro rt
    have hstep : (armWarningStep now a rs rt wt).effects = rt.effects ∧
        (armWarningStep now a rs rt wt).state = rt.state := by
      unfold armWarningStep
      dsimp only
      split_ifs <;> exact ⟨rfl, rfl⟩
    obtain ⟨g1, g2⟩ := ih (armWarningStep now a rs rt wt)
    exact ⟨g1.trans hstep.1, g2.trans hstep.2⟩

theorem clearTrackedTimer_effects (rt : Runtime) (a : Nat) :
    (clearTrackedTimer rt a).effects = rt.effects ∧
    (clearTrackedTimer rt a).state = rt.state := by
  unfold clearTrackedTimer
  cases alistLookup rt.shutdownTimers a <;> exact ⟨rfl, rfl⟩

theorem scheduleShutdown_effects (rt : Runtime) (now : Int) (a c : Nat) (rs : Int) :
    (scheduleShutdown rt now a c rs).effects = rt.effects ∧
    (scheduleShutdown rt now a c rs).state = rt.state := by
  unfold scheduleShutdown
  obtain ⟨h1, h2⟩ := clearTrackedTimer_effects rt a
  split_ifs with hrs
  · exact ⟨h1, h2⟩
  · obtain ⟨g1, g2⟩ := armWarningFold_effects
      ((clearTrackedTimer rt a).state.settings.warningTimes) now a rs (clearTrackedTimer rt a)
    exact ⟨g1.trans h1, g2.trans h2⟩

/-- C2 (amended): there is no warnings-fired set anywhere in the plugin:
EVERY quota evaluation whose remaining minutes lie in the (14, 15] window
of the 15-minute threshold emits the 15-minute warning again, regardless of
how many identical warnings were already emitted the same day (the effects
list below grows by the same warning on every such evaluation). -/
theorem checkQuotas_warning15_each_eval (rt : Runtime) (now : Int) (lt : LocalTime)
    (a c : Nat) (agent : Agent)
    (hwt : rt.state.settings.warningTimes = [15, 5, 1])
    (hag : alistLookup rt.state.agents a = some agent)
    (hpd : agent.currentProcessData = none)
    (hch : bedtimeOf rt c = none) :
    (checkQuotasAndEnforce okOracle880 rt now lt a c).effects =
      rt.effects ++
        [Effect.trigger a (AgentAction.showWarning "15 minutes remaining"
            "You have 15 minutes of computer time left." "normal"),
         Effect.rendererQuotaWarning a "computer" (mkRat 880 60)] := by
  have hshow : (showTimeWarning rt a "computer" (mkRat 880 60)).effects =
      rt.effects ++ [Effect.trigger a (AgentAction.showWarning "15 minutes remaining"
        "You have 15 minutes of computer time left." "normal"),
        Effect.rendererQuotaWarning a "computer" (mkRat 880 60)] ∧
      (showTimeWarning rt a "computer" (mkRat 880 60)).state = rt.state := by
    unfold showTimeWarning
    rw [hag]
    dsimp only
    refine ⟨?_, rfl⟩
    rw [List.append_assoc]
    congr 1
  have hsched := scheduleShutdown_effects
    (showTimeWarning rt a "computer" (mkRat 880 60)) now a c 880
  have hbed : checkBedtime (scheduleShutdown
      (showTimeWarning rt a "computer" (mkRat 880 60)) now a c 880) now lt a c =
      scheduleShutdown (showTimeWarning rt a "computer" (mkRat 880 60)) now a c 880 := by
    unfold checkBedtime
    rw [hsched.2, hshow.2]
    cases hcc : alistLookup rt.state.children c with
    | none => rfl
    | some cfg =>
      dsimp only
      have hcb : cfg.bedtime = none := by
        unfold bedtimeOf at hch
        rw [hcc] at hch
        exact hch
      rw [hcb]
  unfold checkQuotasAndEnforce
  rw [hag]
  have hor : okOracle880 c "computer" = Except.ok (some
      { is_banned := false, is_activity_blocked := false, allowed := true,
        remaining_seconds := 880 }) := rfl
  rw [hor]
  dsimp only
  rw [hpd]
  simp only [Option.map_none', Option.getD_none]
  rw [if_neg (by simp : ¬ (([] : List ProcEntry) ≠ []))]
  dsimp only
  rw [if_neg (by decide : ¬ ((false || false || !true) = true))]
  rw [hwt]
  simp only [List.foldl]
  unfold quotaWarnStep
  rw [if_pos (show mkRat 880 60 ≤ (((15 : Nat) : Int) : Rat) ∧
      ((((15 : Nat) : Int) - 1 : Int) : Rat) < mkRat 880 60 by decide)]
  rw [if_neg (by decide :
    ¬ (mkRat 880 60 ≤ (((5 : Nat) : Int) : Rat) ∧
       ((((5 : Nat) : Int) - 1 : Int) : Rat) < mkRat 880 60))]
  rw [if_neg (by decide :
    ¬ (mkRat 880 60 ≤ (((1 : Nat) : Int) : Rat) ∧
       ((((1 : Nat) : Int) - 1 : Int) : Rat) < mkRat 880 60))]
  rw [if_neg (by decide : ¬ ((880 : Int) ≤ 0))]
  unfold quotaInternetAndBedtime
  dsimp only
  rw [hbed, hsched.1, hshow.1]

/-- C2 counterexample: two quota evaluations 30 seconds apart (same local
day), both observing 880 seconds remaining (inside the (14, 15] window of
the 15-minute threshold), emit TWO 15-minute warnings for the same agent,
activity and threshold on the same day. -/
theorem quota_warning_repeats_same_day :
    localDate 0 0 = localDate 0 30000 ∧
    ((checkQuotasAndEnforce okOracle880
        (checkQuotasAndEnforce okOracle880 baseRT 0 lt0 1 2) 30000 lt0 1
        2).effects.filter (isWarnTitled 1 "15 minutes remaining")).length = 2 := by decide

/-- C2 witness: the amended theorem applied to the concrete base runtime. -/
theorem checkQuotas_warning15_each_eval_witness :
    (checkQuotasAndEnforce okOracle880 baseRT 0 lt0 1 2).effects =
      baseRT.effects ++
        [Effect.trigger 1 (AgentAction.showWarning "15 minutes remaining"
            "You have 15 minutes of computer time left." "normal"),
         Effect.rendererQuotaWarning 1 "computer" (mkRat 880 60)] :=
  checkQuotas_warning15_each_eval baseRT 0 lt0 1 2 agentKid rfl rfl rfl rfl

theorem updateUsageRT_effects (rt : Runtime) (now : Int) (a c : Nat) (ty : String)
    (tel : UsageTelemetry) : (updateUsageRT rt now a c ty tel).effects = rt.effects := rfl

theorem updateUsageRT_state (rt : Runtime) (now : Int) (a c : Nat) (ty : String)
    (tel : UsageTelemetry) : (updateUsageRT rt now a c ty tel).state = rt.state := rfl

theorem blockedStep_spec (a : Nat) (hn : String) (bp : List String) (now : Int)
    (rt : Runtime) (p : ProcEntry) (hb : isBlockedName bp p.name = true) :
    (blockedStep a hn bp now rt p).effects =
      rt.effects ++ blockedOneEffects rt.state.settings a hn now p ∧
    (blockedStep a hn bp now rt p).state.settings = rt.state.settings ∧
    (blockedStep a hn bp now rt p).state.violations =
      pushViolation rt.state.violations (blockedViolation a p now) := by
  unfold blockedStep logViolation logActivity
  rw [if_pos hb]
  dsimp only
  split_ifs <;> simp_all [blockedOneEffects, List.append_assoc]

theorem blockedFold_spec (a : Nat) (hn : String) (bp : List String) (now : Int) :
    ∀ (ps : List ProcEntry) (rt : Runtime),
      (ps.foldl (blockedStep a hn bp now) rt).effects = rt.effects ++
        blockedNews rt.state.settings a hn now
          (ps.filter (fun p => isBlockedName bp p.name)) ∧
      (ps.foldl (blockedStep a hn bp now) rt).state.settings = rt.state.settings ∧
      (ps.foldl (blockedStep a hn bp now) rt).state.violations =
        (ps.filter (fun p => isBlockedName bp p.name)).foldl
          (fun vs p => pushViolation vs (blockedViolation a p now))
          rt.state.violations := by
  intro ps
  induction ps with
  | nil => exact fun rt => ⟨(List.append_nil _).symm, rfl, rfl⟩
  | cons p rest ih =>
    intro rt
    by_cases hb : isBlockedName bp p.name
    · obtain ⟨s1, s2, s3⟩ := blockedStep_spec a hn bp now rt p hb
      obtain ⟨g1, g2, g3⟩ := ih (blockedStep a hn bp now rt p)
      have hf : (p :: rest).filter (fun p => isBlockedName bp p.name) =
          p :: rest.filter (fun p => isBlockedName bp p.name) := by
        simp [List.filter, hb]
      rw [List.foldl_cons, hf]
      refine ⟨?_, g2.trans s2, ?_⟩
      · rw [g1, s2, s1, blockedNews, List.append_assoc]
      · rw [g3, s3, List.foldl_cons]
    · have hbf : isBlockedName bp p.name = false := by
        cases hval : isBlockedName bp p.name
        · rfl
        · exact absurd hval hb
      have hstep : blockedStep a hn bp now rt p = rt := by
        unfold blockedStep
        rw [if_neg (by rw [hbf]; exact Bool.false_ne_true)]
      have hf : (p :: rest).filter (fun p => isBlockedName bp p.name) =
          rest.filter (fun p => isBlockedName bp p.name) := by
        simp [List.filter, hbf]
      rw [List.foldl_cons, hf, hstep]
      exact ih rt

theorem stripKills_all (l : List Effect) :
    (stripKills l).all (fun e => !(isKill e)) = true := by
  rw [stripKills, List.all_eq_true]
  intro e he
  exact (List.mem_filter.mp he).2

theorem blockedOne_strip (s : Settings) (a : Nat) (hn : String) (now : Int)
    (p : ProcEntry) :
    blockedOneEffects { s with killOnViolation := false } a hn now p =
      stripKills (blockedOneEffects { s with killOnViolation := true } a hn now p) := by
  unfold blockedOneEffects stripKills
  by_cases hnp : s.notifyParent
  · simp [hnp, isKill, List.filter_append]
  · have hnp2 : s.notifyParent = false := by
      cases hval : s.notifyParent
      · rfl
      · exact absurd hval hnp
    simp [hnp2, isKill, List.filter_append]

theorem blockedNews_strip (s : Settings) (a : Nat) (hn : String) (now : Int) :
    ∀ ps, blockedNews { s with killOnViolation := false } a hn now ps =
      stripKills (blockedNews { s with killOnViolation := true } a hn now ps) := by
  intro ps
  induction ps with
  | nil => rfl
  | cons p rest ih =>
    rw [blockedNews, blockedNews, ih, blockedOne_strip, stripKills, stripKills, stripKills,
      List.filter_append]

/-- C10: with killOnViolation off, a blocked-process detection dispatches no
kill action, while the Application Blocked warning, the appended
blocked_process Violation records and the renderer notifications are
produced exactly as with killOnViolation on (the new effects of the off run
are the new effects of the on run with the kill dispatches removed, in
order, and the violations rings agree). -/
theorem handleProcessData_killOnViolation_false (rt : Runtime) (now : Int) (a : Nat)
    (d : ProcessData) :
    newEffects (handleProcessData (setKillOnViolation rt false) now a d)
        (setKillOnViolation rt false) =
      stripKills (newEffects (handleProcessData (setKillOnViolation rt true) now a d)
        (setKillOnViolation rt true)) ∧
    (newEffects (handleProcessData (setKillOnViolation rt false) now a d)
        (setKillOnViolation rt false)).all (fun e => !(isKill e)) = true ∧
    (handleProcessData (setKillOnViolation rt false) now a d).state.violations =
      (handleProcessData (setKillOnViolation rt true) now a d).state.violations := by
  unfold handleProcessData setKillOnViolation
  dsimp only
  cases hag : alistLookup rt.state.agents a with
  | none =>
    refine ⟨?_, ?_, rfl⟩
    · simp only [newEffects, List.drop_length]
      rfl
    · simp only [newEffects, List.drop_length]
      rfl
  | some agent =>
    dsimp only
    cases hcid : agent.childId with
    | none =>
      dsimp only
      refine ⟨?_, ?_, rfl⟩
      · simp only [newEffects, List.drop_length]
        rfl
      · simp only [newEffects, List.drop_length]
        rfl
    | some childId =>
      dsimp only
      split_ifs with hbrow
      · obtain ⟨f1, f2, f3⟩ := blockedFold_spec a agent.hostname
          ((alistLookup rt.state.children childId).getD
            { blockedProcesses := [], bedtime := none }).blockedProcesses now
          d.processes
          (updateUsageRT
            { rt with state := { rt.state with settings :=
                { rt.state.settings with killOnViolation := false } } }
            now a childId "internet" { isIdle := false, browsers := d.browsers })
        obtain ⟨g1, g2, g3⟩ := blockedFold_spec a agent.hostname
          ((alistLookup rt.state.children childId).getD
            { blockedProcesses := [], bedtime := none }).blockedProcesses now
          d.processes
          (updateUsageRT
            { rt with state := { rt.state with settings :=
                { rt.state.settings with killOnViolation := true } } }
            now a childId "internet" { isIdle := false, browsers := d.browsers })
        refine ⟨?_, ?_, ?_⟩
        · rw [newEffects, newEffects, f1, g1]
          simp only [updateUsageRT_effects, updateUsageRT_state]
          try dsimp only
          rw [List.drop_left, List.drop_left]
          exact blockedNews_strip rt.state.settings a agent.hostname now _
        · rw [newEffects, f1]
          simp only [updateUsageRT_effects, updateUsageRT_state]
          try dsimp only
          rw [List.drop_left]
          rw [blockedNews_strip rt.state.settings a agent.hostname now _]
          exact stripKills_all _
        · rw [f3, g3]
          simp only [updateUsageRT_state]
      · obtain ⟨f1, f2, f3⟩ := blockedFold_spec a agent.hostname
          ((alistLookup rt.state.children childId).getD
            { blockedProcesses := [], bedtime := none }).blockedProcesses now
          d.processes
          { rt with state := { rt.state with settings :=
              { rt.state.settings with killOnViolation := false } } }
        obtain ⟨g1, g2, g3⟩ := blockedFold_spec a agent.hostname
          ((alistLookup rt.state.children childId).getD
            { blockedProcesses := [], bedtime := none }).blockedProcesses now
          d.processes
          { rt with state := { rt.state with settings :=
              { rt.state.settings with killOnViolation := true } } }
        refine ⟨?_, ?_, ?_⟩
        · rw [newEffects, newEffects, f1, g1]
          dsimp only
          rw [List.drop_left, List.drop_left]
          exact blockedNews_strip rt.state.settings a agent.hostname now _
        · rw [newEffects, f1]
          dsimp only
          rw [List.drop_left]
          rw [blockedNews_strip rt.state.settings a agent.hostname now _]
          exact stripKills_all _
        · rw [f3, g3]
